import Mathlib

/-!
Shallow embedding of the federated playlist synchronization core
(server/lib/activitypub/playlist.ts): data model, validators, the
reconcile pipeline (`createOrUpdateVideoPlaylist`, `resetVideoPlaylistElements`),
the staleness-triggered refresh (`refreshVideoPlaylistIfNeeded`) and the
account-playlist bootstrap (`createAccountPlaylists`), together with
proofs of the specified properties.
-/

namespace PlaylistSync

/-- Modelled from the spec: a URL is abstracted as a host plus the rest of the
address; the origin check only inspects the host component. -/
structure Url where
  host : String
  rest : String
deriving DecidableEq, Repr

/-- Visibility enum of a local playlist (shared/models VideoPlaylistPrivacy);
PRIVATE is never assigned by this pipeline. -/
inductive Privacy where
  | PUBLIC
  | UNLISTED
  | PRIVATE
deriving DecidableEq, Repr

/-- Account owning a playlist: only its surrogate id is consumed by the pipeline. -/
structure Account where
  id : Nat
deriving DecidableEq, Repr

/-- Modelled from the spec: result of the external actor-resolution capability
(`getOrCreateActorAndServerAndModel`); the pipeline only reads the resolved
actor's optional video-channel id (`actor.VideoChannel`). -/
structure Actor where
  videoChannel : Option Nat
deriving DecidableEq, Repr

/-- Modelled from the spec: result of the external video-resolution capability
(`getOrCreateVideoAndAccountAndChannel`); only the local video id is consumed. -/
structure Video where
  id : Nat
deriving DecidableEq, Repr

/-- PlaylistObject: a structurally valid remote playlist manifest as decoded
JSON (fields per the federation vocabulary: id, name, content, uuid,
published, updated, to, attributedTo, icon). The audience list `to` is
modelled as always present. -/
structure PlaylistObject where
  id : Url
  name : String
  content : String
  uuid : String
  published : Nat
  updated : Nat
  toAudience : List String
  attributedTo : List Url
  icon : Option Url
deriving DecidableEq, Repr

/-- PlaylistElementObject: a structurally valid remote playlist element
(fields id, url, position, startTimestamp, stopTimestamp). Structural
validity requires an explicit integer position, so every accepted element
carries a declared position. -/
structure PlaylistElementObject where
  id : Url
  url : Url
  position : Nat
  startTimestamp : Option Int
  stopTimestamp : Option Int
deriving DecidableEq, Repr

/-- Persistent row of the VideoPlaylistModel table. -/
structure PlaylistRow where
  id : Nat
  url : Url
  uuid : String
  name : String
  description : String
  privacy : Privacy
  ownerAccountId : Nat
  videoChannelId : Option Nat
  createdAt : Nat
  updatedAt : Nat
  lastRefreshedAt : Option Nat
deriving DecidableEq, Repr

/-- Persistent row of the VideoPlaylistElementModel table (the attributes
inserted by `resetVideoPlaylistElements`; surrogate element ids are not
modelled). -/
structure ElementRow where
  position : Nat
  url : Url
  startTimestamp : Option Int
  stopTimestamp : Option Int
  videoPlaylistId : Nat
  videoId : Nat
deriving DecidableEq, Repr

/-- World state: the two persistent tables, the playlist id sequence, and a
count of thumbnail download attempts (the externally observable
`downloadImage` effect). -/
structure World where
  playlists : List PlaylistRow
  elements : List ElementRow
  nextPlaylistId : Nat
  thumbnailAttempts : Nat
deriving DecidableEq, Repr

/-- Environment of external capabilities consumed by one pipeline run.
Fetch results model `doRequest`: `.error` is a thrown network error, a `none`
body is a structurally invalid / unparsable payload. `crawl` is modelled from
the spec (`crawlCollectionPage` accumulating the item identifiers; an
unreachable page terminates the crawl early with partial results, so it never
throws). `txOk` tells whether the element-replacement database transaction
commits; `downloadImageOk` whether the external image fetch succeeds. -/
structure Env where
  fetchPlaylist : Url → Except Unit (Nat × Option PlaylistObject)
  fetchElement : Url → Except Unit (Option PlaylistElementObject)
  resolveVideo : Url → Except Unit Video
  resolveActor : Url → Except Unit Actor
  crawl : Url → List Url
  downloadImageOk : Bool
  txOk : Bool
  nowTime : Nat
  refreshInterval : Nat

/-- Audience marker whose presence makes a playlist PUBLIC (ACTIVITY_PUB.PUBLIC). -/
def AP_PUBLIC : String := "https://www.w3.org/ns/activitystreams#Public"

/-- Modelled from the spec: origin check `sameHost(declaredId, fetchedFromUrl)`
(helpers/activitypub `checkUrlsSameHost`): true exactly when the two URLs
share the same host. -/
def checkUrlsSameHost (url1 url2 : Url) : Bool :=
  url1.host == url2.host

/-- JavaScript `x || null` on an optional numeric field: undefined and 0 are
falsy and map to null; any non-zero value is kept. -/
def jsOrNull (x : Option Int) : Option Int :=
  match x with
  | none => none
  | some v => if v = 0 then none else some v

/-- Modelled from the spec: staleness predicate (`videoPlaylist.isOutdated()`):
a playlist is Stale once now minus lastRefreshedAt exceeds the configured
refresh interval; a playlist never yet refreshed is Stale. -/
def isOutdated (env : Env) (p : PlaylistRow) : Bool :=
  match p.lastRefreshedAt with
  | none => true
  | some t => decide (env.refreshInterval + t < env.nowTime)

/-- Modelled from the spec: `videoPlaylist.setAsRefreshed()` marks the playlist
freshly checked by setting its lastRefreshedAt to now. -/
def setAsRefreshed (env : Env) (pid : Nat) (w : World) : World :=
  { w with playlists :=
      w.playlists.map (fun r =>
        if r.id == pid then { r with lastRefreshedAt := some env.nowTime } else r) }

/-- Modelled from the spec: `videoPlaylist.destroy()` removes the playlist row;
its elements are removed with it (cascade; the spec: delete the local playlist
and its elements). -/
def destroyPlaylist (pid : Nat) (w : World) : World :=
  { w with
    playlists := w.playlists.filter (fun r => !(r.id == pid)),
    elements := w.elements.filter (fun e => !(e.videoPlaylistId == pid)) }

/-- Modelled from the spec: `VideoPlaylistModel.doesPlaylistExist(url)`. -/
def doesPlaylistExist (url : Url) (w : World) : Bool :=
  w.playlists.any (fun r => r.url == url)

/-- Stored element set of one playlist, in table order. -/
def elementsOf (w : World) (pid : Nat) : List ElementRow :=
  w.elements.filter (fun e => e.videoPlaylistId == pid)

/-- Attribute record built from a manifest for the playlist upsert. -/
structure PlaylistAttributes where
  name : String
  description : String
  privacy : Privacy
  url : Url
  uuid : String
  ownerAccountId : Nat
  videoChannelId : Option Nat
  createdAt : Nat
  updatedAt : Nat
deriving DecidableEq, Repr

/-- Update of an existing row by an upsert: every provided attribute is
written; the surrogate id and lastRefreshedAt are untouched. -/
def applyAttrs (r : PlaylistRow) (a : PlaylistAttributes) : PlaylistRow :=
  { r with
    name := a.name
    description := a.description
    privacy := a.privacy
    url := a.url
    uuid := a.uuid
    ownerAccountId := a.ownerAccountId
    videoChannelId := a.videoChannelId
    createdAt := a.createdAt
    updatedAt := a.updatedAt }

/-- Fresh row inserted by an upsert that found no row for the URL. -/
def rowOfAttrs (i : Nat) (a : PlaylistAttributes) : PlaylistRow :=
  { id := i
    url := a.url
    uuid := a.uuid
    name := a.name
    description := a.description
    privacy := a.privacy
    ownerAccountId := a.ownerAccountId
    videoChannelId := a.videoChannelId
    createdAt := a.createdAt
    updatedAt := a.updatedAt
    lastRefreshedAt := none }

/-- Modelled from the spec: `VideoPlaylistModel.upsert(attrs, returning)` keyed
by the globally unique url: update the matching row in place when one exists,
insert a fresh row otherwise; returns the persisted row. -/
def upsertPlaylist (a : PlaylistAttributes) (w : World) : PlaylistRow × World :=
  match w.playlists.find? (fun r => r.url == a.url) with
  | some r =>
      (applyAttrs r a,
       { w with playlists :=
          w.playlists.map (fun q =>
            if q.url == a.url then applyAttrs q a else q) })
  | none =>
      (rowOfAttrs w.nextPlaylistId a,
       { w with
         playlists := w.playlists ++ [rowOfAttrs w.nextPlaylistId a],
         nextPlaylistId := w.nextPlaylistId + 1 })

/-- generateThumbnailFromUrl: one `downloadImage` attempt; it fails when the
external image fetch fails, and the attempt is recorded in the world. -/
def generateThumbnailFromUrl (env : Env) (w : World) : Except Unit Unit × World :=
  ((if env.downloadImageOk then Except.ok () else Except.error ()),
   { w with thumbnailAttempts := w.thumbnailAttempts + 1 })

/-- playlistObjectToDBAttributes (source lines 66-80): privacy is PUBLIC
exactly when the public audience marker occurs in `to`; the channel reference
starts out null. -/
def playlistObjectToDBAttributes (playlistObject : PlaylistObject) (byAccount : Account)
    (toAudience : List String) : PlaylistAttributes :=
  { name := playlistObject.name
    description := playlistObject.content
    privacy := if toAudience.contains AP_PUBLIC then Privacy.PUBLIC else Privacy.UNLISTED
    url := playlistObject.id
    uuid := playlistObject.uuid
    ownerAccountId := byAccount.id
    videoChannelId := none
    createdAt := playlistObject.published
    updatedAt := playlistObject.updated }

/-- playlistElementObjectToDBAttributes (source lines 82-91): the position is
the element object's declared position; start/stop timestamps go through the
JavaScript `|| null` coercion. -/
def playlistElementObjectToDBAttributes (elementObject : PlaylistElementObject)
    (videoPlaylist : PlaylistRow) (video : Video) : ElementRow :=
  { position := elementObject.position
    url := elementObject.id
    startTimestamp := jsOrNull elementObject.startTimestamp
    stopTimestamp := jsOrNull elementObject.stopTimestamp
    videoPlaylistId := videoPlaylist.id
    videoId := video.id }

/-- Body of the per-element try block of resetVideoPlaylistElements (source
lines 201-221): fetch the element, validate it, origin-check it against the
URL it was fetched from, resolve its video; any failure drops this single
element (`none`). -/
def resolvePlaylistElement (env : Env) (playlist : PlaylistRow) (elementUrl : Url) :
    Option ElementRow :=
  match env.fetchElement elementUrl with
  | Except.error _ => none
  | Except.ok none => none
  | Except.ok (some body) =>
      if checkUrlsSameHost body.id elementUrl = false then none
      else
        match env.resolveVideo body.url with
        | Except.error _ => none
        | Except.ok video => some (playlistElementObjectToDBAttributes body playlist video)

/-- The `elementsToCreate` list accumulated by resetVideoPlaylistElements: the
successfully resolved candidates, in crawl order (the concurrent completions
are modelled as sequential scheduling). -/
def videoPlaylistCandidates (env : Env) (playlist : PlaylistRow) (elementUrls : List Url) :
    List ElementRow :=
  elementUrls.filterMap (resolvePlaylistElement env playlist)

/-- resetVideoPlaylistElements (source lines 198-235): resolve all candidates,
then inside one database transaction delete every element of the playlist and
insert the candidates. The transaction is atomic: on commit the whole
replacement is applied, on abort nothing is and the rejection propagates. -/
def resetVideoPlaylistElements (env : Env) (elementUrls : List Url) (playlist : PlaylistRow)
    (w : World) : Except Unit Unit × World :=
  let elementsToCreate := videoPlaylistCandidates env playlist elementUrls
  if env.txOk then
    (Except.ok (),
     { w with elements :=
        w.elements.filter (fun e => !(e.videoPlaylistId == playlist.id)) ++ elementsToCreate })
  else
    (Except.error (), w)

/-- attributedTo handling of createOrUpdateVideoPlaylist (source lines
124-132): with exactly one attributed actor, resolve it (a resolution throw
propagates) and take its channel id when it has one; otherwise the channel
stays null. -/
def resolveChannelId (env : Env) (playlistObject : PlaylistObject) :
    Except Unit (Option Nat) :=
  match playlistObject.attributedTo with
  | [a] => (env.resolveActor a).map (fun actor => actor.videoChannel)
  | _ => Except.ok none

/-- Attributes actually handed to the upsert: the manifest-derived attributes
with the resolved channel reference filled in. -/
def attrsOf (playlistObject : PlaylistObject) (byAccount : Account)
    (toAudience : List String) (chan : Option Nat) : PlaylistAttributes :=
  { playlistObjectToDBAttributes playlistObject byAccount toAudience with
     videoChannelId := chan }

/-- createOrUpdateVideoPlaylist (source lines 121-153): build the attributes,
resolve the attributed channel, upsert the playlist row, crawl the item
collection, attempt the thumbnail only when the crawled item list is non-empty
(a thumbnail failure is caught and logged), and finally replace the element
set. -/
def createOrUpdateVideoPlaylist (env : Env) (playlistObject : PlaylistObject)
    (byAccount : Account) (toAudience : List String) (w : World) : Except Unit Unit × World :=
  match resolveChannelId env playlistObject with
  | Except.error e => (Except.error e, w)
  | Except.ok chan =>
      let up := upsertPlaylist (attrsOf playlistObject byAccount toAudience chan) w
      let accItems := env.crawl playlistObject.id
      let w2 := if accItems.isEmpty then up.2 else (generateThumbnailFromUrl env up.2).2
      resetVideoPlaylistElements env accItems up.1 w2

/-- fetchRemoteVideoPlaylist (source lines 243-261): one GET; the body is
trusted only when structurally valid (carried by the typed body) and of the
same host as the URL it was fetched from, otherwise `playlistObject` is
undefined; the raw status code is always propagated. -/
def fetchRemoteVideoPlaylist (env : Env) (playlistUrl : Url) :
    Except Unit (Nat × Option PlaylistObject) :=
  match env.fetchPlaylist playlistUrl with
  | Except.error e => Except.error e
  | Except.ok (status, body) =>
      match body with
      | none => Except.ok (status, none)
      | some o =>
          if checkUrlsSameHost o.id playlistUrl then Except.ok (status, some o)
          else Except.ok (status, none)

/-- refreshVideoPlaylistIfNeeded (source lines 155-184): Fresh playlists are
returned untouched; otherwise fetch the manifest — 404 destroys the playlist
and returns undefined, an invalid body marks the playlist refreshed, a valid
manifest runs the full reconcile and returns the playlist, and any thrown
error is caught, marks the playlist refreshed and returns it. -/
def refreshVideoPlaylistIfNeeded (env : Env) (videoPlaylist : PlaylistRow) (w : World) :
    Option PlaylistRow × World :=
  if isOutdated env videoPlaylist = false then (some videoPlaylist, w)
  else
    match fetchRemoteVideoPlaylist env videoPlaylist.url with
    | Except.error _ => (some videoPlaylist, setAsRefreshed env videoPlaylist.id w)
    | Except.ok (statusCode, playlistObject) =>
        if statusCode == 404 then (none, destroyPlaylist videoPlaylist.id w)
        else
          match playlistObject with
          | none => (some videoPlaylist, setAsRefreshed env videoPlaylist.id w)
          | some po =>
              match createOrUpdateVideoPlaylist env po { id := videoPlaylist.ownerAccountId }
                      po.toAudience w with
              | (Except.ok _, w1) => (some videoPlaylist, w1)
              | (Except.error _, w1) => (some videoPlaylist, setAsRefreshed env videoPlaylist.id w1)

/-- One iteration of createAccountPlaylists (source lines 93-119): skip an
already known URL, fetch the manifest, require structural validity and an
audience array (the latter always holds in the typed model) — with no origin
check — then create or update the playlist; every thrown error is caught and
the world reached so far is kept. -/
def createAccountPlaylistOne (env : Env) (account : Account) (w : World) (playlistUrl : Url) :
    World :=
  if doesPlaylistExist playlistUrl w then w
  else
    match env.fetchPlaylist playlistUrl with
    | Except.error _ => w
    | Except.ok (_, none) => w
    | Except.ok (_, some body) =>
        (createOrUpdateVideoPlaylist env body account body.toAudience w).2

/-- createAccountPlaylists (source lines 93-119): process each playlist URL
(the bounded concurrency is modelled as sequential scheduling). -/
def createAccountPlaylists (env : Env) (playlistUrls : List Url) (account : Account)
    (w : World) : World :=
  playlistUrls.foldl (createAccountPlaylistOne env account) w

/-! Concrete fixtures used to evaluate the pipeline on explicit inputs. -/

/-- Host of the honest remote instance. -/
def hostA : String := "alpha.example"

/-- Host of a second, foreign instance. -/
def hostB : String := "beta.example"

/-- URL of the remote playlist manifest on the honest host. -/
def urlP : Url := { host := hostA, rest := "/videos/watch/playlist/1" }

/-- URLs of remote playlist elements on the honest host. -/
def urlE1 : Url := { host := hostA, rest := "/video-playlists/1/videos/1" }

/-- Second element URL. -/
def urlE2 : Url := { host := hostA, rest := "/video-playlists/1/videos/2" }

/-- Video object URL referenced by the second element. -/
def urlV2 : Url := { host := hostA, rest := "/videos/watch/2" }

/-- A valid manifest for `urlP`, same host, public audience, no attribution. -/
def poA : PlaylistObject :=
  { id := urlP
    name := "remote name"
    content := "remote description"
    uuid := "9af21780-0000-0000-0000-000000000001"
    published := 1
    updated := 2
    toAudience := [AP_PUBLIC]
    attributedTo := []
    icon := none }

/-- A manifest fetched from `urlP` whose self-declared id lives on the foreign
host. -/
def poEvil : PlaylistObject := { poA with id := { host := hostB, rest := urlP.rest } }

/-- A valid element object for `urlE2`, declared position 2, zero start bound
and a non-zero stop bound. -/
def eo2 : PlaylistElementObject :=
  { id := urlE2
    url := urlV2
    position := 2
    startTimestamp := some 0
    stopTimestamp := some 7 }

/-- An element object fetched from `urlE1` whose self-declared id lives on the
foreign host. -/
def eoEvil : PlaylistElementObject :=
  { id := { host := hostB, rest := urlE1.rest }
    url := urlV2
    position := 1
    startTimestamp := none
    stopTimestamp := none }

/-- The locally stored playlist row for `urlP`, last refreshed at time 0. -/
def rowP : PlaylistRow :=
  { id := 1
    url := urlP
    uuid := "9af21780-0000-0000-0000-000000000001"
    name := "old name"
    description := "old description"
    privacy := Privacy.UNLISTED
    ownerAccountId := 5
    videoChannelId := none
    createdAt := 0
    updatedAt := 0
    lastRefreshedAt := some 0 }

/-- A stored element of the playlist predating the refresh. -/
def oldElem : ElementRow :=
  { position := 9
    url := { host := hostA, rest := "/video-playlists/1/videos/9" }
    startTimestamp := none
    stopTimestamp := none
    videoPlaylistId := 1
    videoId := 99 }

/-- World holding the stale playlist and its old element. -/
def w0 : World :=
  { playlists := [rowP], elements := [oldElem], nextPlaylistId := 2, thumbnailAttempts := 0 }

/-- World with empty tables. -/
def emptyWorld : World :=
  { playlists := [], elements := [], nextPlaylistId := 1, thumbnailAttempts := 0 }

/-- Environment of the happy refresh path: the manifest fetch succeeds with a
valid same-host manifest, the item collection is empty, the transaction
commits, now is 100 and the refresh interval 10 (so `rowP` is stale). -/
def envA : Env :=
  { fetchPlaylist := fun u => if u == urlP then Except.ok (200, some poA) else Except.error ()
    fetchElement := fun _ => Except.error ()
    resolveVideo := fun _ => Except.error ()
    resolveActor := fun _ => Except.error ()
    crawl := fun _ => []
    downloadImageOk := true
    txOk := true
    nowTime := 100
    refreshInterval := 10 }

/-- Environment where element `urlE2` is fetchable and its video resolves, and
the crawl of the playlist yields exactly that element. -/
def envB : Env :=
  { envA with
    fetchElement := fun u => if u == urlE2 then Except.ok (some eo2) else Except.error ()
    resolveVideo := fun u => if u == urlV2 then Except.ok { id := 42 } else Except.error ()
    crawl := fun _ => [urlE1, urlE2] }

/-- Same as `envB` but the element-replacement transaction fails. -/
def envTxFail : Env := { envB with txOk := false }

/-- Environment whose playlist fetch yields HTTP 404 with an unparsable body. -/
def env404 : Env :=
  { envA with fetchPlaylist := fun u => if u == urlP then Except.ok (404, none) else Except.error () }

/-- Environment whose playlist fetch yields status 500 with an unparsable body. -/
def envBadBody : Env :=
  { envA with fetchPlaylist := fun u => if u == urlP then Except.ok (500, none) else Except.error () }

/-- Environment whose playlist fetch returns, from the honest URL, a manifest
claiming a foreign-host identifier. -/
def envCrossHost : Env :=
  { envA with fetchPlaylist := fun u => if u == urlP then Except.ok (200, some poEvil) else Except.error () }

/-- Environment whose element fetch returns, from `urlE1`, an element claiming
a foreign-host identifier. -/
def envCrossHostElem : Env :=
  { envA with fetchElement := fun u => if u == urlE1 then Except.ok (some eoEvil) else Except.error () }

/-- Environment whose crawl yields one item URL that then fails to fetch, so
the crawled collection is non-empty while no element resolves. -/
def envThumbOnly : Env := { envA with crawl := fun _ => [urlE1] }

/-- World after one successful reconcile of `poA` under `envA`. -/
def wSuccess : World :=
  (createOrUpdateVideoPlaylist envA poA { id := 5 } poA.toAudience w0).2

/-- World reached when the reconcile of `poA` under `envTxFail` throws at the
element-replacement transaction (the metadata upsert is already persisted). -/
def wTxFail : World :=
  (createOrUpdateVideoPlaylist envTxFail poA { id := 5 } poA.toAudience w0).2

/-- World after the first reconcile of `poA` under `envB`. -/
def wIdem1 : World :=
  (createOrUpdateVideoPlaylist envB poA { id := 5 } poA.toAudience w0).2

/-- World after reconciling `poA` under `envB` a second time. -/
def wIdem2 : World :=
  (createOrUpdateVideoPlaylist envB poA { id := 5 } poA.toAudience wIdem1).2

/-- The element row produced by resolving `eo2` for `rowP`. -/
def rowE2 : ElementRow := playlistElementObjectToDBAttributes eo2 rowP { id := 42 }

/-! General lemmas about the embedded operations. -/

/-- Every accumulated candidate row belongs to the playlist being reconciled. -/
theorem candidates_videoPlaylistId (env : Env) (p : PlaylistRow) (urls : List Url) :
    ∀ e ∈ videoPlaylistCandidates env p urls, e.videoPlaylistId = p.id := by
  intro e he
  rw [videoPlaylistCandidates, List.mem_filterMap] at he
  obtain ⟨u, _, hu⟩ := he
  unfold resolvePlaylistElement at hu
  split at hu
  · exact absurd hu (by simp)
  · exact absurd hu (by simp)
  · split at hu
    · exact absurd hu (by simp)
    · split at hu
      · exact absurd hu (by simp)
      · injection hu with hu2
        rw [← hu2]
        rfl

/-- Re-filtering for a playlist after its rows were removed yields nothing. -/
theorem filter_not_then_eq_nil (l : List ElementRow) (pid : Nat) :
    (l.filter (fun e => !(e.videoPlaylistId == pid))).filter
      (fun e => e.videoPlaylistId == pid) = [] := by
  rw [List.filter_filter]
  rw [List.filter_eq_nil_iff]
  intro a _
  by_cases h : (a.videoPlaylistId == pid) <;> simp [h]

/-- Removing a playlist's rows twice is the same as removing them once. -/
theorem filter_not_idem (l : List ElementRow) (pid : Nat) :
    (l.filter (fun e => !(e.videoPlaylistId == pid))).filter
      (fun e => !(e.videoPlaylistId == pid))
      = l.filter (fun e => !(e.videoPlaylistId == pid)) := by
  rw [List.filter_filter]
  exact List.filter_congr (fun a _ => by by_cases h : (a.videoPlaylistId == pid) <;> simp [h])

/-- The candidate rows all survive a filter for their own playlist. -/
theorem filter_candidates_self (env : Env) (p : PlaylistRow) (urls : List Url) :
    (videoPlaylistCandidates env p urls).filter (fun e => e.videoPlaylistId == p.id)
      = videoPlaylistCandidates env p urls := by
  rw [List.filter_eq_self]
  intro a ha
  rw [candidates_videoPlaylistId env p urls a ha]
  exact beq_self_eq_true _

/-- No candidate row survives a filter excluding its own playlist. -/
theorem filter_candidates_nil (env : Env) (p : PlaylistRow) (urls : List Url) :
    (videoPlaylistCandidates env p urls).filter (fun e => !(e.videoPlaylistId == p.id))
      = [] := by
  rw [List.filter_eq_nil_iff]
  intro a ha
  rw [candidates_videoPlaylistId env p urls a ha]
  simp

/-- Element resolution only depends on the playlist row through its id. -/
theorem resolvePlaylistElement_id_congr (env : Env) (p q : PlaylistRow) (hid : p.id = q.id)
    (u : Url) : resolvePlaylistElement env p u = resolvePlaylistElement env q u := by
  unfold resolvePlaylistElement
  split
  · rfl
  · rfl
  · split
    · rfl
    · split
      · rfl
      · simp [playlistElementObjectToDBAttributes, hid]

/-- Candidate accumulation only depends on the playlist row through its id. -/
theorem candidates_id_congr (env : Env) (p q : PlaylistRow) (hid : p.id = q.id)
    (urls : List Url) :
    videoPlaylistCandidates env p urls = videoPlaylistCandidates env q urls := by
  unfold videoPlaylistCandidates
  have : resolvePlaylistElement env p = resolvePlaylistElement env q :=
    funext (resolvePlaylistElement_id_congr env p q hid)
  rw [this]

/-- An upsert never touches the element table. -/
theorem upsertPlaylist_elements (a : PlaylistAttributes) (w : World) :
    ((upsertPlaylist a w).2).elements = w.elements := by
  unfold upsertPlaylist
  split <;> rfl

/-- An upsert never touches the thumbnail-attempt count. -/
theorem upsertPlaylist_thumbnailAttempts (a : PlaylistAttributes) (w : World) :
    ((upsertPlaylist a w).2).thumbnailAttempts = w.thumbnailAttempts := by
  unfold upsertPlaylist
  split <;> rfl

/-- Attribute application keeps the surrogate id. -/
theorem applyAttrs_id (r : PlaylistRow) (a : PlaylistAttributes) :
    (applyAttrs r a).id = r.id := rfl

/-- Attribute application keeps lastRefreshedAt. -/
theorem applyAttrs_lastRefreshedAt (r : PlaylistRow) (a : PlaylistAttributes) :
    (applyAttrs r a).lastRefreshedAt = r.lastRefreshedAt := rfl

/-- Attribute application rewrites the row URL to the attribute URL. -/
theorem applyAttrs_url (r : PlaylistRow) (a : PlaylistAttributes) :
    (applyAttrs r a).url = a.url := rfl

/-- Every pre-existing row survives an upsert with its id and lastRefreshedAt
unchanged. -/
theorem upsertPlaylist_preserves_rows (a : PlaylistAttributes) (w : World) :
    ∀ r ∈ w.playlists, ∃ r2 ∈ ((upsertPlaylist a w).2).playlists,
      r2.id = r.id ∧ r2.lastRefreshedAt = r.lastRefreshedAt := by
  intro r hr
  unfold upsertPlaylist
  split
  · refine ⟨if r.url == a.url then applyAttrs r a else r, ?_, ?_, ?_⟩
    · exact List.mem_map_of_mem _ hr
    · split <;> rfl
    · split <;> rfl
  · exact ⟨r, by simp [hr], rfl, rfl⟩

/-- Looking up the upsert key right after an upsert finds the row the upsert
returned. -/
theorem find?_after_upsert (a : PlaylistAttributes) (w : World) :
    ((upsertPlaylist a w).2).playlists.find? (fun r => r.url == a.url)
      = some ((upsertPlaylist a w).1) := by
  unfold upsertPlaylist
  cases h : w.playlists.find? (fun r => r.url == a.url) with
  | some r =>
      simp only []
      rw [List.find?_map]
      have hfun : ((fun r : PlaylistRow => r.url == a.url) ∘
            (fun q : PlaylistRow => if q.url == a.url then applyAttrs q a else q))
          = (fun q : PlaylistRow => q.url == a.url) := by
        funext q
        by_cases hq : (q.url == a.url) <;> simp [Function.comp, hq, applyAttrs_url]
      rw [hfun, h]
      have hr : (r.url == a.url) = true := by simpa using List.find?_some h
      simp [hr]
      intro hne
      exact absurd (by simpa using hr) hne
  | none =>
      simp only []
      rw [List.find?_append, h]
      simp [rowOfAttrs]

/-- Upserting the same attributes into any world whose playlist table is the
one just produced returns the same row updated in place. -/
theorem upsertPlaylist_stable (a : PlaylistAttributes) (w w' : World)
    (hp : w'.playlists = ((upsertPlaylist a w).2).playlists) :
    (upsertPlaylist a w').1 = applyAttrs ((upsertPlaylist a w).1) a := by
  have hf : w'.playlists.find? (fun r => r.url == a.url) = some ((upsertPlaylist a w).1) := by
    rw [hp]
    exact find?_after_upsert a w
  unfold upsertPlaylist
  rw [hf]
  rfl

/-- The thumbnail attempt leaves both tables unchanged and adds one attempt. -/
theorem generateThumbnail_world (env : Env) (w : World) :
    (generateThumbnailFromUrl env w).2
      = { w with thumbnailAttempts := w.thumbnailAttempts + 1 } := rfl

/-- Successful reconciliation shape: a success run resolves the channel,
commits the transaction, and the resulting world carries the old element table
with the playlist's rows replaced by the candidates, the upserted playlist
table, and a thumbnail attempt exactly when the crawled item list was
non-empty. -/
theorem createOrUpdate_ok_spec (env : Env) (po : PlaylistObject) (acct : Account)
    (toAud : List String) (w w1 : World)
    (h : createOrUpdateVideoPlaylist env po acct toAud w = (Except.ok (), w1)) :
    ∃ chan, resolveChannelId env po = Except.ok chan ∧ env.txOk = true ∧
      w1.elements
        = w.elements.filter
            (fun e => !(e.videoPlaylistId == (upsertPlaylist (attrsOf po acct toAud chan) w).1.id))
          ++ videoPlaylistCandidates env ((upsertPlaylist (attrsOf po acct toAud chan) w).1)
              (env.crawl po.id)
      ∧ w1.playlists = ((upsertPlaylist (attrsOf po acct toAud chan) w).2).playlists
      ∧ w1.thumbnailAttempts
          = w.thumbnailAttempts + (if (env.crawl po.id).isEmpty then 0 else 1) := by
  unfold createOrUpdateVideoPlaylist at h
  cases hch : resolveChannelId env po with
  | error e =>
      rw [hch] at h
      exact absurd h (by simp)
  | ok chan =>
      rw [hch] at h
      refine ⟨chan, rfl, ?_⟩
      unfold resetVideoPlaylistElements at h
      cases htx : env.txOk with
      | false =>
          rw [htx] at h
          exact absurd h (by simp)
      | true =>
          rw [htx] at h
          simp only [if_true] at h
          refine ⟨rfl, ?_⟩
          have hw : w1 = _ := (congrArg Prod.snd h).symm
          rw [hw]
          cases hc : (env.crawl po.id).isEmpty <;>
            simp only [hc, if_true, if_false, Bool.false_eq_true, generateThumbnail_world] <;>
            refine ⟨?_, ?_, ?_⟩ <;>
            simp [upsertPlaylist_elements, upsertPlaylist_thumbnailAttempts]

/-- Failed reconciliation shape: a run that throws leaves the element table
unchanged and keeps every pre-existing playlist row with its id and
lastRefreshedAt intact (although a failure after the upsert keeps the already
updated metadata). -/
theorem createOrUpdate_error_spec (env : Env) (po : PlaylistObject) (acct : Account)
    (toAud : List String) (w w1 : World) (e : Unit)
    (h : createOrUpdateVideoPlaylist env po acct toAud w = (Except.error e, w1)) :
    w1.elements = w.elements ∧
    ∀ r ∈ w.playlists, ∃ r2 ∈ w1.playlists, r2.id = r.id ∧ r2.lastRefreshedAt = r.lastRefreshedAt := by
  unfold createOrUpdateVideoPlaylist at h
  cases hch : resolveChannelId env po with
  | error e2 =>
      rw [hch] at h
      have hw : w1 = w := (congrArg Prod.snd h).symm
      rw [hw]
      exact ⟨rfl, fun r hr => ⟨r, hr, rfl, rfl⟩⟩
  | ok chan =>
      rw [hch] at h
      unfold resetVideoPlaylistElements at h
      cases htx : env.txOk with
      | true =>
          rw [htx] at h
          exact absurd h (by simp)
      | false =>
          rw [htx] at h
          simp only [Bool.false_eq_true, if_false] at h
          have hw : w1 = _ := (congrArg Prod.snd h).symm
          rw [hw]
          cases hc : (env.crawl po.id).isEmpty with
          | true =>
              simp only [hc, if_true]
              exact ⟨upsertPlaylist_elements _ w,
                upsertPlaylist_preserves_rows _ w⟩
          | false =>
              simp only [hc, if_false, generateThumbnail_world]
              exact ⟨upsertPlaylist_elements _ w,
                upsertPlaylist_preserves_rows _ w⟩

/-! Claim theorems. -/

/-- C1: the replacement of a playlist's element set is all-or-nothing: when
the transaction commits, the stored element set of the playlist becomes
exactly the successfully resolved candidates (every pre-existing element of
the playlist deleted, the candidates inserted) while elements of other
playlists are untouched, and when the transaction fails, the whole previous
state is left unchanged and the failure propagates. -/
theorem C1_reset_all_or_nothing (env : Env) (elementUrls : List Url)
    (playlist : PlaylistRow) (w : World) :
    (env.txOk = true →
      elementsOf (resetVideoPlaylistElements env elementUrls playlist w).2 playlist.id
          = videoPlaylistCandidates env playlist elementUrls
        ∧ ((resetVideoPlaylistElements env elementUrls playlist w).2).elements.filter
            (fun e => !(e.videoPlaylistId == playlist.id))
          = w.elements.filter (fun e => !(e.videoPlaylistId == playlist.id))
        ∧ (resetVideoPlaylistElements env elementUrls playlist w).1 = Except.ok ())
    ∧ (env.txOk = false →
        resetVideoPlaylistElements env elementUrls playlist w = (Except.error (), w)) := by
  constructor
  · intro htx
    have hres : resetVideoPlaylistElements env elementUrls playlist w
        = (Except.ok (), { w with elements :=
            (w.elements.filter (fun e => !(e.videoPlaylistId == playlist.id))
              ++ videoPlaylistCandidates env playlist elementUrls) }) := by
      unfold resetVideoPlaylistElements
      rw [htx]
      rfl
    rw [hres]
    refine ⟨?_, ?_, rfl⟩
    · unfold elementsOf
      simp only [List.filter_append, filter_not_then_eq_nil, filter_candidates_self,
        List.nil_append]
    · simp only [List.filter_append, filter_not_idem, filter_candidates_nil,
        List.append_nil]
  · intro htx
    unfold resetVideoPlaylistElements
    rw [htx]
    simp

/-- C1 witness: a committing reconciliation under `envB` and a failing
transaction under `envTxFail`, both at explicit inputs. -/
theorem C1_reset_all_or_nothing_witness :
    (elementsOf (resetVideoPlaylistElements envB [urlE1, urlE2] rowP w0).2 rowP.id
        = videoPlaylistCandidates envB rowP [urlE1, urlE2])
    ∧ resetVideoPlaylistElements envTxFail [urlE1, urlE2] rowP w0 = (Except.error (), w0) :=
  ⟨((C1_reset_all_or_nothing envB [urlE1, urlE2] rowP w0).1 rfl).1,
   (C1_reset_all_or_nothing envTxFail [urlE1, urlE2] rowP w0).2 rfl⟩

/-- C10: a declared startTimestamp or stopTimestamp of 0, like an absent one,
is persisted as null; non-zero timestamps are preserved. -/
theorem C10_falsy_timestamps (eo : PlaylistElementObject) (vp : PlaylistRow) (v : Video) :
    ((eo.startTimestamp = none ∨ eo.startTimestamp = some 0) →
        (playlistElementObjectToDBAttributes eo vp v).startTimestamp = none)
    ∧ (∀ t : Int, t ≠ 0 → eo.startTimestamp = some t →
        (playlistElementObjectToDBAttributes eo vp v).startTimestamp = some t)
    ∧ ((eo.stopTimestamp = none ∨ eo.stopTimestamp = some 0) →
        (playlistElementObjectToDBAttributes eo vp v).stopTimestamp = none)
    ∧ (∀ t : Int, t ≠ 0 → eo.stopTimestamp = some t →
        (playlistElementObjectToDBAttributes eo vp v).stopTimestamp = some t) := by
  refine ⟨?_, ?_, ?_, ?_⟩
  · intro h
    cases h with
    | inl h => simp [playlistElementObjectToDBAttributes, jsOrNull, h]
    | inr h => simp [playlistElementObjectToDBAttributes, jsOrNull, h]
  · intro t ht h
    simp [playlistElementObjectToDBAttributes, jsOrNull, h, ht]
  · intro h
    cases h with
    | inl h => simp [playlistElementObjectToDBAttributes, jsOrNull, h]
    | inr h => simp [playlistElementObjectToDBAttributes, jsOrNull, h]
  · intro t ht h
    simp [playlistElementObjectToDBAttributes, jsOrNull, h, ht]

/-- C10 witness: `eo2` declares startTimestamp 0 and stopTimestamp 7; the
stored row has a null start bound and a preserved stop bound. -/
theorem C10_falsy_timestamps_witness :
    (playlistElementObjectToDBAttributes eo2 rowP { id := 42 }).startTimestamp = none
    ∧ (playlistElementObjectToDBAttributes eo2 rowP { id := 42 }).stopTimestamp = some 7 :=
  ⟨(C10_falsy_timestamps eo2 rowP { id := 42 }).1 (Or.inr rfl),
   (C10_falsy_timestamps eo2 rowP { id := 42 }).2.2.2 7 (by decide) rfl⟩

/-- C6: every inserted element row originates from a fetched element object
that passed validation and origin check, and its position field is exactly
that object's explicitly declared position (structural validity forces every
accepted element to carry one, so the explicit position always wins and no
renumbering ever happens). -/
theorem C6_explicit_position_wins (env : Env) (p : PlaylistRow) (u : Url) (row : ElementRow)
    (h : resolvePlaylistElement env p u = some row) :
    ∃ body video, env.fetchElement u = Except.ok (some body)
      ∧ checkUrlsSameHost body.id u = true
      ∧ env.resolveVideo body.url = Except.ok video
      ∧ row = playlistElementObjectToDBAttributes body p video
      ∧ row.position = body.position := by
  unfold resolvePlaylistElement at h
  cases hfe : env.fetchElement u with
  | error e => rw [hfe] at h; exact absurd h (by simp)
  | ok ob =>
      cases ob with
      | none => rw [hfe] at h; exact absurd h (by simp)
      | some body =>
          rw [hfe] at h
          simp only [] at h
          by_cases hs : checkUrlsSameHost body.id u = false
          · rw [if_pos hs] at h
            exact absurd h (by simp)
          · rw [if_neg hs] at h
            cases hrv : env.resolveVideo body.url with
            | error e => rw [hrv] at h; exact absurd h (by simp)
            | ok video =>
                rw [hrv] at h
                injection h with h2
                refine ⟨body, video, rfl, by simpa using hs, hrv, h2.symm, ?_⟩
                rw [← h2]
                rfl

/-- C6 witness: the concrete element `eo2` resolves under `envB` into a row
whose position is the declared position 2. -/
theorem C6_explicit_position_wins_witness :
    ∃ body video, envB.fetchElement urlE2 = Except.ok (some body)
      ∧ checkUrlsSameHost body.id urlE2 = true
      ∧ envB.resolveVideo body.url = Except.ok video
      ∧ rowE2 = playlistElementObjectToDBAttributes body rowP video
      ∧ rowE2.position = body.position :=
  C6_explicit_position_wins envB rowP urlE2 rowE2 rfl

/-- C5 counterexample: the claim is false for manifests fetched by
createAccountPlaylists — a manifest fetched from `urlP` that declares the
foreign-host identifier `poEvil.id` fails the origin check, yet the playlist
is created and persisted under the foreign identifier (the object is
trusted). -/
theorem C5_counterexample :
    checkUrlsSameHost poEvil.id urlP = false
    ∧ ((createAccountPlaylists envCrossHost [urlP] { id := 5 } emptyWorld).playlists.map
        (fun r => r.url)) = [poEvil.id] :=
  ⟨rfl, rfl⟩

/-- C5 (amended): the origin check protects the refresh path and playlist
elements — a manifest whose declared identifier is on a different host than
the URL it was fetched from is treated as invalid by fetchRemoteVideoPlaylist,
and such an element object is skipped by the element resolver — but manifests
fetched by createAccountPlaylists are not origin-checked. -/
theorem C5_origin_check (env : Env) (url : Url) (status : Nat) (o : PlaylistObject)
    (p : PlaylistRow) (urlE : Url) (bodyE : PlaylistElementObject) :
    (env.fetchPlaylist url = Except.ok (status, some o) →
      checkUrlsSameHost o.id url = false →
      fetchRemoteVideoPlaylist env url = Except.ok (status, none))
    ∧ (env.fetchElement urlE = Except.ok (some bodyE) →
      checkUrlsSameHost bodyE.id urlE = false →
      resolvePlaylistElement env p urlE = none) := by
  constructor
  · intro hf hm
    unfold fetchRemoteVideoPlaylist
    rw [hf]
    simp [hm]
  · intro hf hm
    unfold resolvePlaylistElement
    rw [hf]
    simp [hm]

/-- C5 witness: the cross-host manifest is rejected on the refresh path and
the cross-host element is skipped, at explicit inputs. -/
theorem C5_origin_check_witness :
    fetchRemoteVideoPlaylist envCrossHost urlP = Except.ok (200, none)
    ∧ resolvePlaylistElement envCrossHostElem rowP urlE1 = none :=
  ⟨(C5_origin_check envCrossHost urlP 200 poEvil rowP urlE1 eoEvil).1 rfl rfl,
   (C5_origin_check envCrossHostElem urlP 200 poEvil rowP urlE1 eoEvil).2 rfl rfl⟩

/-- C3: a refresh whose fetch completes with HTTP status 404 destroys the
local playlist row together with all of its elements, whatever the body and
the playlist's prior state, and returns the deleted outcome (none). -/
theorem C3_404_deletes (env : Env) (p : PlaylistRow) (w : World) (status : Nat)
    (body : Option PlaylistObject)
    (hOut : isOutdated env p = true)
    (hFetch : env.fetchPlaylist p.url = Except.ok (status, body))
    (h404 : status = 404) :
    refreshVideoPlaylistIfNeeded env p w = (none, destroyPlaylist p.id w)
    ∧ (∀ r ∈ (refreshVideoPlaylistIfNeeded env p w).2.playlists, r.id ≠ p.id)
    ∧ (∀ e ∈ (refreshVideoPlaylistIfNeeded env p w).2.elements, e.videoPlaylistId ≠ p.id) := by
  subst h404
  have hfr : ∃ ob, fetchRemoteVideoPlaylist env p.url = Except.ok (404, ob) := by
    unfold fetchRemoteVideoPlaylist
    rw [hFetch]
    cases body with
    | none => exact ⟨none, rfl⟩
    | some o =>
        by_cases hs : checkUrlsSameHost o.id p.url
        · exact ⟨some o, by simp [hs]⟩
        · exact ⟨none, by simp [hs]⟩
  obtain ⟨ob, hfr⟩ := hfr
  have hmain : refreshVideoPlaylistIfNeeded env p w = (none, destroyPlaylist p.id w) := by
    unfold refreshVideoPlaylistIfNeeded
    rw [hOut, hfr]
    simp
  refine ⟨hmain, ?_, ?_⟩
  · rw [hmain]
    intro r hr
    unfold destroyPlaylist at hr
    simp only [List.mem_filter] at hr
    simpa using hr.2
  · rw [hmain]
    intro e he
    unfold destroyPlaylist at he
    simp only [List.mem_filter] at he
    simpa using he.2

/-- C3 witness: the 404 environment deletes `rowP` and empties its element
set at explicit inputs. -/
theorem C3_404_deletes_witness :
    refreshVideoPlaylistIfNeeded env404 rowP w0 = (none, destroyPlaylist rowP.id w0)
    ∧ (∀ r ∈ (refreshVideoPlaylistIfNeeded env404 rowP w0).2.playlists, r.id ≠ rowP.id) :=
  ⟨(C3_404_deletes env404 rowP w0 404 none rfl rfl rfl).1,
   (C3_404_deletes env404 rowP w0 404 none rfl rfl rfl).2.1⟩

/-- C2 counterexample: the claim is false — at the stale `rowP` (last
refreshed at 0, now 100) whose fetch returns the valid same-host manifest
`poA`, the refresh runs the reconcile but the stored lastRefreshedAt stays 0
instead of being set to the current time. -/
theorem C2_counterexample :
    isOutdated envA rowP = true
    ∧ fetchRemoteVideoPlaylist envA rowP.url = Except.ok (200, some poA)
    ∧ ((refreshVideoPlaylistIfNeeded envA rowP w0).2.playlists.map
        (fun r => r.lastRefreshedAt)) = [some 0]
    ∧ envA.nowTime = 100 :=
  ⟨rfl, rfl, rfl, rfl⟩

/-- C2 (amended): for a stale playlist whose fetch returns a valid manifest
(non-404), refreshVideoPlaylistIfNeeded runs the full reconcile and returns
the playlist, but does not advance lastRefreshedAt: every pre-existing row
keeps its lastRefreshedAt unchanged (the timestamp is only advanced on the
invalid-body and exception paths). -/
theorem C2_success_keeps_lastRefreshedAt (env : Env) (p : PlaylistRow) (w : World)
    (status : Nat) (po : PlaylistObject) (w1 : World)
    (hOut : isOutdated env p = true)
    (hFetch : fetchRemoteVideoPlaylist env p.url = Except.ok (status, some po))
    (hSt : status ≠ 404)
    (hRec : createOrUpdateVideoPlaylist env po { id := p.ownerAccountId } po.toAudience w
        = (Except.ok (), w1)) :
    refreshVideoPlaylistIfNeeded env p w = (some p, w1)
    ∧ ∀ r ∈ w.playlists, ∃ r2 ∈ w1.playlists,
        r2.id = r.id ∧ r2.lastRefreshedAt = r.lastRefreshedAt := by
  constructor
  · have h4 : (status == 404) = false := by simpa using hSt
    unfold refreshVideoPlaylistIfNeeded
    rw [hOut, hFetch]
    simp [h4, hRec]
  · obtain ⟨chan, hch, htx, hel, hpl, hth⟩ :=
      createOrUpdate_ok_spec env po { id := p.ownerAccountId } po.toAudience w w1 hRec
    intro r hr
    obtain ⟨r2, hr2, hid, hlast⟩ :=
      upsertPlaylist_preserves_rows
        (attrsOf po { id := p.ownerAccountId } po.toAudience chan) w r hr
    refine ⟨r2, ?_, hid, hlast⟩
    rw [hpl]
    exact hr2

/-- C2 witness: the amended statement at the explicit stale playlist `rowP`
under `envA`. -/
theorem C2_success_keeps_lastRefreshedAt_witness :
    refreshVideoPlaylistIfNeeded envA rowP w0 = (some rowP, wSuccess)
    ∧ ∀ r ∈ w0.playlists, ∃ r2 ∈ wSuccess.playlists,
        r2.id = r.id ∧ r2.lastRefreshedAt = r.lastRefreshedAt :=
  C2_success_keeps_lastRefreshedAt envA rowP w0 200 poA wSuccess rfl rfl
    (by decide) rfl

/-- C4 counterexample: the claim is false for exceptions thrown after the
metadata upsert — under `envTxFail` the element-replacement transaction fails
after the upsert persisted the manifest name, so the stored name has changed
from "old name" to "remote name" even though the claim requires name and
description to be left unchanged (lastRefreshedAt is advanced and elements
are kept). -/
theorem C4_counterexample :
    rowP.name = "old name"
    ∧ fetchRemoteVideoPlaylist envTxFail rowP.url = Except.ok (200, some poA)
    ∧ ((refreshVideoPlaylistIfNeeded envTxFail rowP w0).2.playlists.map (fun r => r.name))
        = ["remote name"]
    ∧ ((refreshVideoPlaylistIfNeeded envTxFail rowP w0).2.playlists.map
        (fun r => r.lastRefreshedAt)) = [some 100] :=
  ⟨rfl, rfl, rfl, rfl⟩

/-- C4 (amended): for a stale playlist, an invalid or unparsable non-404 body
leaves everything unchanged except lastRefreshedAt, which is set to now, and
the playlist is returned; a thrown error (fetch exception, or an exception
inside the reconcile) likewise advances lastRefreshedAt, never deletes the
playlist, returns it, and leaves the element content unchanged — but when the
exception occurs after the metadata upsert, name and description have already
been updated from the manifest and are not reverted. -/
theorem C4_failure_advances_timestamp (env : Env) (p : PlaylistRow) (w : World)
    (hOut : isOutdated env p = true) :
    (∀ status, status ≠ 404 →
        fetchRemoteVideoPlaylist env p.url = Except.ok (status, none) →
        refreshVideoPlaylistIfNeeded env p w = (some p, setAsRefreshed env p.id w))
    ∧ (fetchRemoteVideoPlaylist env p.url = Except.error () →
        refreshVideoPlaylistIfNeeded env p w = (some p, setAsRefreshed env p.id w))
    ∧ (∀ status po w1, status ≠ 404 →
        fetchRemoteVideoPlaylist env p.url = Except.ok (status, some po) →
        createOrUpdateVideoPlaylist env po { id := p.ownerAccountId } po.toAudience w
            = (Except.error (), w1) →
        refreshVideoPlaylistIfNeeded env p w = (some p, setAsRefreshed env p.id w1)
        ∧ w1.elements = w.elements
        ∧ ∀ r ∈ w.playlists, ∃ r2 ∈ w1.playlists,
            r2.id = r.id ∧ r2.lastRefreshedAt = r.lastRefreshedAt)
    ∧ (∀ w' : World, (setAsRefreshed env p.id w').elements = w'.elements
        ∧ ((setAsRefreshed env p.id w').playlists.map (fun r => (r.id, r.name, r.description)))
            = w'.playlists.map (fun r => (r.id, r.name, r.description))) := by
  refine ⟨?_, ?_, ?_, ?_⟩
  · intro status hSt hFetch
    have h4 : (status == 404) = false := by simpa using hSt
    unfold refreshVideoPlaylistIfNeeded
    rw [hOut, hFetch]
    simp [h4]
  · intro hFetch
    unfold refreshVideoPlaylistIfNeeded
    rw [hOut, hFetch]
    simp
  · intro status po w1 hSt hFetch hRec
    have h4 : (status == 404) = false := by simpa using hSt
    refine ⟨?_, ?_⟩
    · unfold refreshVideoPlaylistIfNeeded
      rw [hOut, hFetch]
      simp [h4, hRec]
    · exact createOrUpdate_error_spec env po { id := p.ownerAccountId } po.toAudience w w1 () hRec
  · intro w'
    refine ⟨rfl, ?_⟩
    unfold setAsRefreshed
    rw [List.map_map]
    have hfun : ((fun r : PlaylistRow => (r.id, r.name, r.description)) ∘
          (fun r : PlaylistRow =>
            if r.id == p.id then { r with lastRefreshedAt := some env.nowTime } else r))
        = fun r : PlaylistRow => (r.id, r.name, r.description) := by
      funext r
      by_cases h : (r.id == p.id) <;> simp [Function.comp, h]
    rw [hfun]

/-- C4 witness: the invalid-body path (status 500) and the throwing path
(failing transaction), each at explicit inputs. -/
theorem C4_failure_advances_timestamp_witness :
    (refreshVideoPlaylistIfNeeded envBadBody rowP w0
        = (some rowP, setAsRefreshed envBadBody rowP.id w0))
    ∧ (refreshVideoPlaylistIfNeeded envTxFail rowP w0
        = (some rowP, setAsRefreshed envTxFail rowP.id wTxFail))
    ∧ wTxFail.elements = w0.elements := by
  have hbad := (C4_failure_advances_timestamp envBadBody rowP w0 rfl).1 500 (by decide) rfl
  have htx := (C4_failure_advances_timestamp envTxFail rowP w0 rfl).2.2.1 200 poA wTxFail
      (by decide) rfl rfl
  exact ⟨hbad, htx.1, htx.2.1⟩

/-- C7: reconciliation is idempotent — two successive successful reconciles of
the same manifest under the same environment (same resolution results) leave
the element table after the second run identical to the one after the first
(same rows, same order, same count). -/
theorem C7_reconcile_idempotent (env : Env) (po : PlaylistObject) (acct : Account)
    (toAud : List String) (w w1 w2 : World)
    (h1 : createOrUpdateVideoPlaylist env po acct toAud w = (Except.ok (), w1))
    (h2 : createOrUpdateVideoPlaylist env po acct toAud w1 = (Except.ok (), w2)) :
    w2.elements = w1.elements := by
  obtain ⟨chan, hch, htx, hel1, hpl1, hth1⟩ := createOrUpdate_ok_spec env po acct toAud w w1 h1
  obtain ⟨chan2, hch2, htx2, hel2, hpl2, hth2⟩ :=
    createOrUpdate_ok_spec env po acct toAud w1 w2 h2
  have hcc : chan2 = chan := by
    rw [hch] at hch2
    injection hch2 with h
    exact h.symm
  subst hcc
  have hstab : (upsertPlaylist (attrsOf po acct toAud chan2) w1).1
      = applyAttrs ((upsertPlaylist (attrsOf po acct toAud chan2) w).1)
          (attrsOf po acct toAud chan2) :=
    upsertPlaylist_stable _ w w1 hpl1
  have hid : (upsertPlaylist (attrsOf po acct toAud chan2) w1).1.id
      = (upsertPlaylist (attrsOf po acct toAud chan2) w).1.id := by
    rw [hstab]
    rfl
  have hcand : videoPlaylistCandidates env
        ((upsertPlaylist (attrsOf po acct toAud chan2) w1).1) (env.crawl po.id)
      = videoPlaylistCandidates env
        ((upsertPlaylist (attrsOf po acct toAud chan2) w).1) (env.crawl po.id) :=
    candidates_id_congr env _ _ hid _
  rw [hel2, hcand, hid, hel1]
  rw [List.filter_append, filter_not_idem, filter_candidates_nil]
  simp

/-- C7 witness: reconciling `poA` twice under `envB` (one resolvable element)
yields identical element tables. -/
theorem C7_reconcile_idempotent_witness : wIdem2.elements = wIdem1.elements :=
  C7_reconcile_idempotent envB poA { id := 5 } poA.toAudience w0 wIdem1 wIdem2 rfl rfl

/-- C8 counterexample: the claim's "attempted iff the new element set is
non-empty" is false — under `envThumbOnly` the crawled collection holds one
item that fails to resolve, so the new element set is empty, yet a thumbnail
fetch was attempted. -/
theorem C8_counterexample :
    w0.thumbnailAttempts = 0
    ∧ ((createOrUpdateVideoPlaylist envThumbOnly poA { id := 5 } poA.toAudience
          w0).2.thumbnailAttempts) = 1
    ∧ ((createOrUpdateVideoPlaylist envThumbOnly poA { id := 5 } poA.toAudience
          w0).2.elements) = [] :=
  ⟨rfl, rfl, rfl⟩

/-- C8 (amended): thumbnail regeneration is attempted exactly when the crawled
item collection is non-empty (even when no item resolves, so it may be
attempted for an empty new element set); a thumbnail failure never fails the
reconciliation (the run is insensitive to the image fetch outcome); and for an
empty remote item collection the metadata upsert still happens, the element
set becomes empty, and thumbnail regeneration is skipped. -/
theorem C8_thumbnail_gating (env : Env) (po : PlaylistObject) (acct : Account)
    (toAud : List String) (w : World) (chan : Option Nat)
    (hch : resolveChannelId env po = Except.ok chan) :
    ((createOrUpdateVideoPlaylist env po acct toAud w).2.thumbnailAttempts
        = w.thumbnailAttempts + (if (env.crawl po.id).isEmpty then 0 else 1))
    ∧ (∀ b1 b2 : Bool,
        createOrUpdateVideoPlaylist { env with downloadImageOk := b1 } po acct toAud w
          = createOrUpdateVideoPlaylist { env with downloadImageOk := b2 } po acct toAud w)
    ∧ (env.crawl po.id = [] → env.txOk = true →
        (createOrUpdateVideoPlaylist env po acct toAud w).1 = Except.ok ()
        ∧ elementsOf (createOrUpdateVideoPlaylist env po acct toAud w).2
            ((upsertPlaylist (attrsOf po acct toAud chan) w).1.id) = []
        ∧ (createOrUpdateVideoPlaylist env po acct toAud w).2.playlists
            = ((upsertPlaylist (attrsOf po acct toAud chan) w).2).playlists) := by
  have hcore : createOrUpdateVideoPlaylist env po acct toAud w
      = resetVideoPlaylistElements env (env.crawl po.id)
          ((upsertPlaylist (attrsOf po acct toAud chan) w).1)
          (if (env.crawl po.id).isEmpty
            then (upsertPlaylist (attrsOf po acct toAud chan) w).2
            else (generateThumbnailFromUrl env
                    (upsertPlaylist (attrsOf po acct toAud chan) w).2).2) := by
    unfold createOrUpdateVideoPlaylist
    rw [hch]
  refine ⟨?_, ?_, ?_⟩
  · rw [hcore]
    unfold resetVideoPlaylistElements
    cases htx : env.txOk <;> cases hc : (env.crawl po.id).isEmpty <;>
      simp [htx, hc, generateThumbnail_world, upsertPlaylist_thumbnailAttempts]
  · intro b1 b2
    rfl
  · intro hcr htx
    rw [hcore, hcr]
    unfold resetVideoPlaylistElements
    simp [htx, elementsOf, videoPlaylistCandidates, filter_not_then_eq_nil]

/-- C8 witness: the empty remote collection under `envA` updates the metadata,
skips the thumbnail, and leaves the element set empty, at explicit inputs. -/
theorem C8_thumbnail_gating_witness :
    ((createOrUpdateVideoPlaylist envA poA { id := 5 } poA.toAudience w0).1 = Except.ok ()
    ∧ elementsOf (createOrUpdateVideoPlaylist envA poA { id := 5 } poA.toAudience w0).2
        ((upsertPlaylist (attrsOf poA { id := 5 } poA.toAudience none) w0).1.id) = [])
    ∧ ((createOrUpdateVideoPlaylist envA poA { id := 5 } poA.toAudience
          w0).2.thumbnailAttempts)
        = w0.thumbnailAttempts + (if (envA.crawl poA.id).isEmpty then 0 else 1) := by
  have h := C8_thumbnail_gating envA poA { id := 5 } poA.toAudience w0 none rfl
  have h3 := h.2.2 rfl rfl
  exact ⟨⟨h3.1, h3.2.1⟩, h.1⟩

end PlaylistSync

